import Mathlib

/-!
Verification of the token-economy core of the reportify-spot repository.

The definitions below are a shallow embedding of the repository's
authoritative server-side procedures (supabase/schema.sql: the
`check_token_balance`, `award_report_tokens`,
`increment_hazard_votes` / `decrement_hazard_votes`,
`increment_hazard_comments` / `decrement_hazard_comments` trigger
functions, and the row-level-security policies) together with the
client service functions that drive them
(src/services/rewardService.ts, src/services/hazardService.ts and the
store service file).

Rows are modelled as structures holding exactly the columns the
claims depend on (opaque UUID columns become `Nat`, SQL `INTEGER`
becomes `Int`, timestamps become `Option Nat`); free-text and
geographic columns (descriptions, names, lat/lng, addresses, image
URLs) play no role in any claim and are omitted.  The database is a
record of lists, one per table.  Each Engine operation is a pure
state transformer; an operation that the source executes as a single
SQL statement (an insert together with its BEFORE INSERT trigger) is
one Lean function, which models its atomicity: it either applies all
of its updates or, on a raised exception, returns the state
unchanged.
-/

/-- `hazard_reports.status` enumeration, from the CHECK constraint
`status IN ('active', 'investigating', 'resolved')` in schema.sql. -/
inductive HazardStatus
  | active
  | investigating
  | resolved
deriving DecidableEq, Repr

/-- `user_rewards.status` enumeration, from the CHECK constraint
`status IN ('pending', 'fulfilled', 'cancelled')` in schema.sql. -/
inductive RewardStatus
  | pending
  | fulfilled
  | cancelled
deriving DecidableEq, Repr

/-- A row of `public.profiles`: id, integer token balance
(`tokens INTEGER DEFAULT 0 NOT NULL`) and the `is_admin` flag added at
the end of schema.sql. -/
structure Profile where
  id : Nat
  tokens : Int
  is_admin : Bool
deriving DecidableEq, Repr

/-- A row of `public.store_items`: id, `token_cost INTEGER NOT NULL`,
`available BOOLEAN DEFAULT true`. -/
structure StoreItem where
  id : Nat
  token_cost : Int
  available : Bool
deriving DecidableEq, Repr

/-- A row of `public.hazard_reports` restricted to the columns the
claims mention: id, reporting user, lifecycle status, the denormalized
`votes` and `comments` counters and the `token_reward` column. -/
structure HazardReportRow where
  id : Nat
  reported_by : Nat
  status : HazardStatus
  votes : Int
  comments : Int
  token_reward : Int
deriving DecidableEq, Repr

/-- A row of `public.hazard_votes`: id plus the composite-unique
pair (`hazard_id`, `user_id`). -/
structure HazardVote where
  id : Nat
  hazard_id : Nat
  user_id : Nat
deriving DecidableEq, Repr

/-- A row of `public.hazard_comments` (content text omitted). -/
structure HazardComment where
  id : Nat
  hazard_id : Nat
  user_id : Nat
deriving DecidableEq, Repr

/-- A row of `public.user_rewards`: id, user, item, status and the
`redemption_date` timestamp (`Option Nat`; `none` models SQL NULL). -/
structure UserReward where
  id : Nat
  user_id : Nat
  item_id : Nat
  status : RewardStatus
  redemption_date : Option Nat
deriving DecidableEq, Repr

/-- The database state: one list per table of the schema (tables not
touched by any claim are omitted). -/
structure DB where
  profiles : List Profile
  store_items : List StoreItem
  hazard_reports : List HazardReportRow
  hazard_votes : List HazardVote
  hazard_comments : List HazardComment
  user_rewards : List UserReward
deriving DecidableEq, Repr

/-- Row lookup by primary key, the model of `SELECT ... WHERE id = x`
followed by `.single()`. -/
def findProfile (db : DB) (uid : Nat) : Option Profile :=
  db.profiles.find? (fun p => p.id == uid)

/-- `SELECT * FROM store_items WHERE id = itemId` + `.single()`. -/
def findStoreItem (db : DB) (iid : Nat) : Option StoreItem :=
  db.store_items.find? (fun s => s.id == iid)

/-- `SELECT * FROM hazard_reports WHERE id = hid` + `.single()`. -/
def findReport (db : DB) (hid : Nat) : Option HazardReportRow :=
  db.hazard_reports.find? (fun h => h.id == hid)

/-- The `is_admin` check that every RLS policy of the form
`auth.uid() IN (SELECT id FROM public.profiles WHERE is_admin = true)`
performs for the acting user. -/
def isAdmin (db : DB) (uid : Nat) : Bool :=
  (findProfile db uid).elim false (fun p => p.is_admin)

/-- `getUserTokens` from src/services/rewardService.ts: selects
`tokens` for the user id with `.single()`; on success returns
`data.tokens || 0` (equal to the stored value, since a stored 0 maps
to 0), and in the catch branch — any storage or lookup error,
including the no-row error that `.single()` raises — returns 0. -/
def getUserTokens (db : DB) (uid : Nat) : Int :=
  match findProfile db uid with
  | none => 0
  | some p => if p.tokens == 0 then 0 else p.tokens

/-- Fresh primary key for an inserted `user_rewards` row, modelling
`uuid_generate_v4()`: one more than the largest id in the table. -/
def freshRewardId (db : DB) : Nat :=
  (db.user_rewards.map (fun r => r.id)).foldr max 0 + 1

/-- The errors the `check_token_balance` trigger can raise.
`ambiguousColumn` is PostgreSQL error 42702, 'column reference
"token_cost" is ambiguous': the trigger declares a PL/pgSQL variable
`token_cost` (schema.sql line 135) and its first statement,
`SELECT token_cost INTO token_cost FROM public.store_items ...`
(line 139), uses the name in a select list where it matches both the
variable and the `store_items.token_cost` column; under the default
`plpgsql.variable_conflict = error` this raises on every execution.
`insufficientTokens` is the RAISE at line 146 and `notFound` the
no-row lookup outcome — both unreachable in the program, kept for the
intended continuation `checkTokenBalanceRest`. -/
inductive RedeemError
  | ambiguousColumn
  | insufficientTokens
  | notFound
deriving DecidableEq, Repr

/-- The INSERT into `public.user_rewards` together with its
BEFORE INSERT trigger `check_token_balance` (schema.sql lines
132-156, 176-179).  The trigger's first statement,
`SELECT token_cost INTO token_cost FROM public.store_items WHERE id =
NEW.item_id` (line 139), raises 'column reference "token_cost" is
ambiguous' on every execution — the declared variable shadows the
selected column and PostgreSQL's default
`plpgsql.variable_conflict = error` refuses the reference — so the
insert statement always aborts before the balance check, the
deduction or the row insert can run: no state ever changes.  The rest
of the trigger body is embedded separately as
`checkTokenBalanceRest`. -/
def redeemInsert (_db : DB) (_uid _iid : Nat) : Except RedeemError DB :=
  Except.error RedeemError.ambiguousColumn

/-- The remainder of the `check_token_balance` trigger body as written
(schema.sql lines 139-154), together with the guarded row insert: look
up the item's `token_cost` and the user's `tokens`; if
`user_tokens < token_cost`, raise (aborting the whole statement);
otherwise deduct the cost from the user's balance and insert one row
with status 'pending'.  In the program this code is unreachable — the
raise described at `redeemInsert` precedes it — so this definition
records only what the trigger was evidently written to do, for
comparison with the actual behavior. -/
def checkTokenBalanceRest (db : DB) (uid iid : Nat) : Except RedeemError DB :=
  match findStoreItem db iid, findProfile db uid with
  | some item, some p =>
      if p.tokens < item.token_cost then
        Except.error RedeemError.insufficientTokens
      else
        Except.ok { db with
          profiles := db.profiles.map (fun q =>
            if q.id == uid then { q with tokens := q.tokens - item.token_cost } else q),
          user_rewards := db.user_rewards ++
            [⟨freshRewardId db, uid, iid, RewardStatus.pending, none⟩] }
  | _, _ => Except.error RedeemError.notFound

/-- The redeem operation as the caller sees it (`redeemStoreItem` in
the store service file): a raised trigger exception is caught and
reported as `false` with the state unchanged; a successful insert
would return `true` with the mutated state, but since `redeemInsert`
always raises, the error branch is the only one ever taken. -/
def redeem_item (db : DB) (uid iid : Nat) : Bool × DB :=
  match redeemInsert db uid iid with
  | Except.ok db' => (true, db')
  | Except.error _ => (false, db)

-- Helper lemmas ------------------------------------------------------------

/-- Specialization of `List.find?_some` with the predicate explicit,
avoiding higher-order unification at use sites. -/
theorem find?_pred {A : Type} (p : A → Bool) (l : List A) (a : A)
    (h : l.find? p = some a) : p a = true :=
  List.find?_some h

/-- Mapping an id-preserving, predicate-respecting function commutes
with `find?`. -/
theorem find?_map_of_pred {α : Type} (l : List α) (f : α → α) (p : α → Bool)
    (hf : ∀ x, p (f x) = p x) :
    (l.map f).find? p = (l.find? p).map f := by
  induction l with
  | nil => rfl
  | cons a t ih =>
      by_cases h : p a = true
      · simp [List.find?, hf, h]
      · have h' : p a = false := by
          cases hp : p a
          · rfl
          · exact absurd hp h
        simp [List.find?, hf, h', ih]

-- Vote / comment counter subsystem -----------------------------------------

/-- `increment_hazard_votes` (schema.sql lines 76-83):
`UPDATE hazard_reports SET votes = votes + 1 WHERE id = hazard_id`. -/
def increment_hazard_votes (db : DB) (hid : Nat) : DB :=
  { db with hazard_reports := db.hazard_reports.map (fun h =>
      if h.id == hid then { h with votes := h.votes + 1 } else h) }

/-- `decrement_hazard_votes` (schema.sql lines 85-92):
`UPDATE hazard_reports SET votes = GREATEST(0, votes - 1) WHERE id = hazard_id`. -/
def decrement_hazard_votes (db : DB) (hid : Nat) : DB :=
  { db with hazard_reports := db.hazard_reports.map (fun h =>
      if h.id == hid then { h with votes := max 0 (h.votes - 1) } else h) }

/-- `increment_hazard_comments` (schema.sql lines 95-102). -/
def increment_hazard_comments (db : DB) (hid : Nat) : DB :=
  { db with hazard_reports := db.hazard_reports.map (fun h =>
      if h.id == hid then { h with comments := h.comments + 1 } else h) }

/-- `decrement_hazard_comments` (schema.sql lines 104-111). -/
def decrement_hazard_comments (db : DB) (hid : Nat) : DB :=
  { db with hazard_reports := db.hazard_reports.map (fun h =>
      if h.id == hid then { h with comments := max 0 (h.comments - 1) } else h) }

/-- Fresh primary key for an inserted `hazard_votes` row
(`uuid_generate_v4()`). -/
def freshVoteId (db : DB) : Nat :=
  (db.hazard_votes.map (fun v => v.id)).foldr max 0 + 1

/-- The existence check opening `voteHazardReport`
(src/services/hazardService.ts): select the vote row for
(`hazard_id`, `user_id`) with `.single()`. -/
def findVote (db : DB) (hid uid : Nat) : Option HazardVote :=
  db.hazard_votes.find? (fun v => v.hazard_id == hid && v.user_id == uid)

/-- `voteHazardReport` (src/services/hazardService.ts lines 163-227):
if a vote row for (user, report) exists, delete it (by its id) and
call `decrement_hazard_votes`, returning `false`; otherwise insert a
fresh vote row and call `increment_hazard_votes`, returning `true`.
This models one complete successful call. -/
def voteHazardReport (db : DB) (hid uid : Nat) : Bool × DB :=
  match findVote db hid uid with
  | some v =>
      let db1 : DB := { db with
        hazard_votes := db.hazard_votes.filter (fun w => !(w.id == v.id)) }
      (false, decrement_hazard_votes db1 hid)
  | none =>
      let db1 : DB := { db with
        hazard_votes := db.hazard_votes ++ [⟨freshVoteId db, hid, uid⟩] }
      (true, increment_hazard_votes db1 hid)

/-- A map that fixes every member of a list is the identity on it. -/
theorem map_eq_self_of {α : Type} (l : List α) (f : α → α)
    (h : ∀ x ∈ l, f x = x) : l.map f = l := by
  induction l with
  | nil => rfl
  | cons a t ih =>
      rw [List.map_cons, h a (List.mem_cons_self a t), ih]
      intro x hx
      exact h x (List.mem_cons_of_mem a hx)

/-- Fresh primary key for an inserted `hazard_reports` row. -/
def freshReportId (db : DB) : Nat :=
  (db.hazard_reports.map (fun h => h.id)).foldr max 0 + 1

/-- Fresh primary key for an inserted `hazard_comments` row. -/
def freshCommentId (db : DB) : Nat :=
  (db.hazard_comments.map (fun c => c.id)).foldr max 0 + 1

/-- `createHazardReport` (src/services/hazardService.ts) together with
the BEFORE INSERT trigger `award_report_tokens` (schema.sql lines
114-129, 170-173): the client inserts the row with status 'active' and
zero counters; the trigger overwrites `token_reward` with the default
amount 10 and adds 10 to the reporting user's balance, inside the same
insert statement. -/
def createHazardReport (db : DB) (uid : Nat) : DB :=
  { db with
    profiles := db.profiles.map (fun q =>
      if q.id == uid then { q with tokens := q.tokens + 10 } else q),
    hazard_reports := db.hazard_reports ++
      [⟨freshReportId db, uid, HazardStatus.active, 0, 0, 10⟩] }

/-- One creation attempt with its storage outcome: the insert is a
single statement, so a storage failure (`ok = false`) aborts the
trigger's credit together with the row — nothing changes.  On success
it returns the new report's id. -/
def createHazardReportAttempt (ok : Bool) (db : DB) (uid : Nat) : Option Nat × DB :=
  if ok then (some (freshReportId db), createHazardReport db uid) else (none, db)

/-- The RLS policy guarding UPDATE on `user_rewards`
("Admins can update reward status", schema.sql lines 279-281): only
rows visible under the policy are updated, and the policy admits
exactly the acting users whose profile has `is_admin = true`. -/
def canUpdateReward (db : DB) (actor : Nat) : Bool :=
  isAdmin db actor

/-- The RLS policies guarding UPDATE on `hazard_reports`
("Users can update their own hazard reports", lines 211-213, OR
"Admins can update any hazard report", lines 215-217). -/
def canUpdateHazard (db : DB) (actor : Nat) (h : HazardReportRow) : Bool :=
  (actor == h.reported_by) || isAdmin db actor

/-- `updateRewardStatus` (src/services/rewardService.ts lines
110-129): one UPDATE statement setting `status` and setting
`redemption_date` to the current time for 'fulfilled' and to NULL
otherwise, on the row matching the id.  Under RLS the update applies
only to rows the acting user's policy admits; rows filtered out by the
policy are silently skipped and no error is raised, so the function
returns `true` either way. -/
def updateRewardStatus (db : DB) (actor rid : Nat) (status : RewardStatus)
    (now : Nat) : Bool × DB :=
  (true, { db with user_rewards := db.user_rewards.map (fun r =>
    if r.id == rid && canUpdateReward db actor then
      { r with status := status,
               redemption_date :=
                 if status == RewardStatus.fulfilled then some now else none }
    else r) })

/-- `updateHazardStatus` (src/services/hazardService.ts lines
621-634): one UPDATE statement setting `status` on the row matching
the id, subject to the hazard-report RLS policies; returns `true`
when the statement raises no error, which a policy filtering out all
rows does not. -/
def updateHazardStatus (db : DB) (actor hid : Nat) (status : HazardStatus) : Bool × DB :=
  (true, { db with hazard_reports := db.hazard_reports.map (fun h =>
    if h.id == hid && canUpdateHazard db actor h then { h with status := status } else h) })

/-- Insertion into `hazard_comments` with its AFTER INSERT trigger
`on_comment_added` calling `increment_hazard_comments`. -/
def addComment (db : DB) (hid uid : Nat) : DB :=
  increment_hazard_comments
    { db with hazard_comments := db.hazard_comments ++ [⟨freshCommentId db, hid, uid⟩] }
    hid

/-- Deletion from `hazard_comments` with its AFTER DELETE trigger
`on_comment_deleted` calling `decrement_hazard_comments`. -/
def deleteComment (db : DB) (cid : Nat) : DB :=
  match db.hazard_comments.find? (fun c => c.id == cid) with
  | some c =>
      decrement_hazard_comments
        { db with hazard_comments := db.hazard_comments.filter (fun w => !(w.id == c.id)) }
        c.hazard_id
  | none => db

/-- The operations of the Token Economy Engine, as invoked by the
application layer. -/
inductive EngineOp
  | createReport (uid : Nat) (ok : Bool)
  | redeemItem (uid iid : Nat)
  | toggleVote (hid uid : Nat)
  | addComment (hid uid : Nat)
  | deleteComment (cid : Nat)
  | transitionReward (actor rid : Nat) (s : RewardStatus) (now : Nat)
  | transitionHazard (actor hid : Nat) (s : HazardStatus)
deriving DecidableEq, Repr

/-- Apply one Engine operation to the database state. -/
def applyOp (db : DB) : EngineOp → DB
  | EngineOp.createReport uid ok => (createHazardReportAttempt ok db uid).2
  | EngineOp.redeemItem uid iid => (redeem_item db uid iid).2
  | EngineOp.toggleVote hid uid => (voteHazardReport db hid uid).2
  | EngineOp.addComment hid uid => addComment db hid uid
  | EngineOp.deleteComment cid => deleteComment db cid
  | EngineOp.transitionReward actor rid s now => (updateRewardStatus db actor rid s now).2
  | EngineOp.transitionHazard actor hid s => (updateHazardStatus db actor hid s).2

/-- Run a finite sequence of Engine operations. -/
def runOps (db : DB) (ops : List EngineOp) : DB :=
  ops.foldl applyOp db

/-- All stored balances are non-negative. -/
def BalancesNonneg (db : DB) : Prop :=
  ∀ p ∈ db.profiles, 0 ≤ p.tokens

/-- The `profiles` primary key is unique. -/
def ProfileIdsNodup (db : DB) : Prop :=
  (db.profiles.map (fun p => p.id)).Nodup

-- Frame and preservation lemmas for balances --------------------------------

/-- Toggling a vote never touches the `profiles` table. -/
theorem voteHazardReport_profiles (db : DB) (hid uid : Nat) :
    (voteHazardReport db hid uid).2.profiles = db.profiles := by
  unfold voteHazardReport
  cases findVote db hid uid
  · rfl
  · rfl

/-- A redemption-status transition never touches the `profiles`
table. -/
theorem updateRewardStatus_profiles (db : DB) (actor rid : Nat)
    (s : RewardStatus) (now : Nat) :
    (updateRewardStatus db actor rid s now).2.profiles = db.profiles :=
  rfl

/-- A hazard-status transition never touches the `profiles` table. -/
theorem updateHazardStatus_profiles (db : DB) (actor hid : Nat) (s : HazardStatus) :
    (updateHazardStatus db actor hid s).2.profiles = db.profiles :=
  rfl

/-- Adding a comment never touches the `profiles` table. -/
theorem addComment_profiles (db : DB) (hid uid : Nat) :
    (addComment db hid uid).profiles = db.profiles :=
  rfl

/-- Deleting a comment never touches the `profiles` table. -/
theorem deleteComment_profiles (db : DB) (cid : Nat) :
    (deleteComment db cid).profiles = db.profiles := by
  unfold deleteComment
  cases db.hazard_comments.find? (fun c => c.id == cid)
  · rfl
  · rfl

/-- An id-preserving row update leaves the list of primary keys
unchanged. -/
theorem map_ids_eq (l : List Profile) (f : Profile → Profile)
    (hf : ∀ x, (f x).id = x.id) :
    (l.map f).map (fun p => p.id) = l.map (fun p => p.id) := by
  induction l with
  | nil => rfl
  | cons a t ih => simp [hf, ih]

/-- Mapping a pointwise nonnegativity-preserving update keeps all
balances non-negative. -/
theorem nonneg_map (l : List Profile) (f : Profile → Profile)
    (h : ∀ x ∈ l, 0 ≤ x.tokens → 0 ≤ (f x).tokens) (hl : ∀ x ∈ l, 0 ≤ x.tokens) :
    ∀ y ∈ l.map f, 0 ≤ y.tokens := by
  intro y hy
  obtain ⟨x, hx, hfx⟩ := List.mem_map.mp hy
  rw [← hfx]
  exact h x hx (hl x hx)

/-- Report creation preserves non-negative balances (it only adds the
reward). -/
theorem createHazardReport_nonneg (db : DB) (uid : Nat)
    (h : BalancesNonneg db) : BalancesNonneg (createHazardReport db uid) := by
  intro q hq
  refine nonneg_map db.profiles _ ?_ h q hq
  intro x hx hx0
  by_cases hc : (x.id == uid) = true
  · simp only [hc, if_true]
    show 0 ≤ x.tokens + 10
    omega
  · simp only [hc, if_false]
    exact hx0

/-- A redemption attempt preserves non-negative balances: the insert
always aborts with the ambiguous-column error and the state is
returned unchanged. -/
theorem redeem_item_nonneg (db : DB) (uid iid : Nat)
    (h : BalancesNonneg db) :
    BalancesNonneg (redeem_item db uid iid).2 :=
  h

/-- Every Engine operation preserves primary-key uniqueness of
`profiles` and non-negativity of every balance. -/
theorem applyOp_preserves (db : DB) (op : EngineOp)
    (hnd : ProfileIdsNodup db) (h : BalancesNonneg db) :
    ProfileIdsNodup (applyOp db op) ∧ BalancesNonneg (applyOp db op) := by
  cases op with
  | createReport uid ok =>
      cases ok with
      | false => exact ⟨hnd, h⟩
      | true =>
          constructor
          · show ProfileIdsNodup (createHazardReport db uid)
            unfold ProfileIdsNodup createHazardReport
            rw [map_ids_eq]
            · exact hnd
            · intro x
              by_cases hc : (x.id == uid) = true
              · simp [hc]
              · simp [hc]
          · exact createHazardReport_nonneg db uid h
  | redeemItem uid iid =>
      exact ⟨hnd, redeem_item_nonneg db uid iid h⟩
  | toggleVote hid uid =>
      constructor
      · show ProfileIdsNodup (voteHazardReport db hid uid).2
        unfold ProfileIdsNodup
        rw [voteHazardReport_profiles]
        exact hnd
      · show BalancesNonneg (voteHazardReport db hid uid).2
        intro q hq
        rw [voteHazardReport_profiles] at hq
        exact h q hq
  | addComment hid uid =>
      constructor
      · show ProfileIdsNodup (addComment db hid uid)
        unfold ProfileIdsNodup
        rw [addComment_profiles]
        exact hnd
      · show BalancesNonneg (addComment db hid uid)
        intro q hq
        rw [addComment_profiles] at hq
        exact h q hq
  | deleteComment cid =>
      constructor
      · show ProfileIdsNodup (deleteComment db cid)
        unfold ProfileIdsNodup
        rw [deleteComment_profiles]
        exact hnd
      · show BalancesNonneg (deleteComment db cid)
        intro q hq
        rw [deleteComment_profiles] at hq
        exact h q hq
  | transitionReward actor rid s now =>
      constructor
      · show ProfileIdsNodup (updateRewardStatus db actor rid s now).2
        unfold ProfileIdsNodup
        rw [updateRewardStatus_profiles]
        exact hnd
      · show BalancesNonneg (updateRewardStatus db actor rid s now).2
        intro q hq
        rw [updateRewardStatus_profiles] at hq
        exact h q hq
  | transitionHazard actor hid s =>
      constructor
      · show ProfileIdsNodup (updateHazardStatus db actor hid s).2
        unfold ProfileIdsNodup
        rw [updateHazardStatus_profiles]
        exact hnd
      · show BalancesNonneg (updateHazardStatus db actor hid s).2
        intro q hq
        rw [updateHazardStatus_profiles] at hq
        exact h q hq

/-- Any finite run of Engine operations preserves both invariants. -/
theorem runOps_preserves (ops : List EngineOp) (db : DB)
    (hnd : ProfileIdsNodup db) (h : BalancesNonneg db) :
    ProfileIdsNodup (runOps db ops) ∧ BalancesNonneg (runOps db ops) := by
  induction ops generalizing db with
  | nil => exact ⟨hnd, h⟩
  | cons op rest ih =>
      have hstep := applyOp_preserves db op hnd h
      exact ih (applyOp db op) hstep.1 hstep.2

-- Concurrency model of check_token_balance ----------------------------------

/-!
The model below runs two concurrent redemption inserts for the same
user, each split into the two phases of the `check_token_balance`
trigger in program order.  The check phase executes the trigger from
its first statement: `SELECT token_cost INTO token_cost ...`
(schema.sql line 139) raises the ambiguous-column error described at
`redeemInsert` before any balance comparison, so the phase can only
record that the transaction aborted — it can never record a passed
check.  The write phase embeds the deduction and row insert as
written at lines 149-154; it runs only after a passed check, and is
therefore unreachable.  A schedule is any interleaving of the phases
of the two transactions; the phases of one transaction stay in
program order. -/

/-- One in-flight redemption transaction: whether its balance check
has run (and passed), and whether its write phase has run. -/
structure RaceTxn where
  checked : Option Bool
  written : Bool
deriving DecidableEq, Repr

/-- Shared state of the experiment: the user's balance row, the
number of committed `user_rewards` rows, and the two transactions. -/
structure RaceState where
  tokens : Int
  rows : Nat
  txnA : RaceTxn
  txnB : RaceTxn
deriving DecidableEq, Repr

/-- Scheduler choices: run the check or write phase of either
transaction. -/
inductive RaceStep
  | checkA
  | applyA
  | checkB
  | applyB
deriving DecidableEq, Repr

/-- Execute one phase.  A check phase runs the trigger from its first
statement, which raises the ambiguous-column error: the transaction
records its abort (`checked := some false`), never a pass.  A write
phase — the deduction of lines 150-152 plus the row insert — fires
only for a transaction whose check passed, so it can never fire; a
phase that already ran is a no-op. -/
def raceStep (cost : Int) (s : RaceState) : RaceStep → RaceState
  | RaceStep.checkA =>
      match s.txnA.checked with
      | none => { s with txnA := { s.txnA with checked := some false } }
      | some _ => s
  | RaceStep.applyA =>
      match s.txnA.checked with
      | some true =>
          if s.txnA.written then s
          else { s with tokens := s.tokens - cost, rows := s.rows + 1,
                        txnA := { s.txnA with written := true } }
      | _ => s
  | RaceStep.checkB =>
      match s.txnB.checked with
      | none => { s with txnB := { s.txnB with checked := some false } }
      | some _ => s
  | RaceStep.applyB =>
      match s.txnB.checked with
      | some true =>
          if s.txnB.written then s
          else { s with tokens := s.tokens - cost, rows := s.rows + 1,
                        txnB := { s.txnB with written := true } }
      | _ => s

/-- Run a schedule of phases over the shared state. -/
def runRace (cost : Int) (s : RaceState) (steps : List RaceStep) : RaceState :=
  steps.foldl (raceStep cost) s

/-- The initial state for a user whose balance exactly covers one
item: balance 15, no redemption rows, both transactions idle. -/
def raceInit : RaceState :=
  ⟨15, 0, ⟨none, false⟩, ⟨none, false⟩⟩

/-- `data.tokens || 0` in JavaScript maps 0 to 0 and any other stored
integer to itself, so it is the stored value. -/
theorem if_beq_zero (t : Int) : (if t == 0 then (0 : Int) else t) = t := by
  by_cases h : (t == 0) = true
  · rw [if_pos h, eq_of_beq h]
  · rw [if_neg h]

/-- When the profile row exists, `getUserTokens` returns its stored
balance. -/
theorem getUserTokens_eq (db : DB) (uid : Nat) (p : Profile)
    (hp : findProfile db uid = some p) : getUserTokens db uid = p.tokens := by
  unfold getUserTokens
  rw [hp]
  exact if_beq_zero p.tokens

/-- `getUserTokens` depends only on the `profiles` table. -/
theorem getUserTokens_congr (db1 db2 : DB) (uid : Nat)
    (h : db1.profiles = db2.profiles) :
    getUserTokens db1 uid = getUserTokens db2 uid := by
  unfold getUserTokens findProfile
  rw [h]

/-- Looking up the reporter after the report-creation credit returns
the credited balance. -/
theorem find?_credit (l : List Profile) (uid : Nat) :
    (l.map (fun q => if q.id == uid then { q with tokens := q.tokens + 10 } else q)).find?
        (fun p => p.id == uid)
      = (l.find? (fun p => p.id == uid)).map
        (fun q => if q.id == uid then { q with tokens := q.tokens + 10 } else q) := by
  exact find?_map_of_pred l _ _ (by
    intro x
    by_cases h : (x.id == uid) = true
    · simp [h]
    · simp [h])

/-- The balance credited by a successful creation attempt. -/
theorem createHazardReport_tokens (db : DB) (uid : Nat) (p : Profile)
    (hp : findProfile db uid = some p) :
    findProfile (createHazardReport db uid) uid
      = some { p with tokens := p.tokens + 10 } := by
  have hp' : db.profiles.find? (fun q => q.id == uid) = some p := hp
  have hpid : (p.id == uid) = true :=
    find?_pred (fun q => q.id == uid) db.profiles p hp'
  show (db.profiles.map (fun q =>
      if q.id == uid then { q with tokens := q.tokens + 10 } else q)).find?
      (fun q => q.id == uid) = _
  rw [find?_credit db.profiles uid]
  unfold findProfile at hp
  rw [hp]
  show some (if (p.id == uid) = true
      then { p with tokens := p.tokens + 10 } else p) = _
  rw [if_pos hpid]

-- Claim theorems -------------------------------------------------------------

/-- Concrete state for C1 and C9: user 5 with balance 20 and item 7
costing 15 — a redemption the claim requires to succeed. -/
def dbC1 : DB :=
  ⟨[⟨5, 20, false⟩], [⟨7, 15, true⟩], [], [], [], []⟩

/-- Claim C1 (code bug): the claim states the trigger body's evident
intent — below-cost balance fails with InsufficientBalance and no
mutation, sufficient balance atomically deducts the cost and inserts
one pending row.  The program does neither: every `user_rewards`
insert aborts with the ambiguous-column error raised by
`check_token_balance`'s first SELECT (see `redeemInsert`), so a
redemption never succeeds, never deducts, never inserts — and an
insufficient one fails with the wrong error, before the balance is
even read.  At the failing input (balance 20, cost 15) the operation
returns failure with the state unchanged, while the trigger's own
unreachable continuation `checkTokenBalanceRest` would have deducted
15 and inserted the pending row exactly as the claim describes. -/
theorem claim_C1_redemption_always_aborts :
    (∀ db : DB, ∀ uid iid : Nat,
      redeemInsert db uid iid = Except.error RedeemError.ambiguousColumn)
    ∧ (∀ db : DB, ∀ uid iid : Nat, redeem_item db uid iid = (false, db))
    ∧ redeem_item dbC1 5 7 = (false, dbC1)
    ∧ checkTokenBalanceRest dbC1 5 7
      = Except.ok ⟨[⟨5, 5, false⟩], [⟨7, 15, true⟩], [], [], [],
          [⟨1, 5, 7, RewardStatus.pending, none⟩]⟩ := by
  exact ⟨fun db uid iid => rfl, fun db uid iid => rfl, rfl, rfl⟩

/-- One phase preserves the abort invariant: balance and row count
untouched, neither transaction's check passed, neither write phase
ran. -/
theorem raceStep_aborts (cost t : Int) (s : RaceState) (st : RaceStep)
    (h : s.tokens = t ∧ s.rows = 0
      ∧ s.txnA.checked ≠ some true ∧ s.txnB.checked ≠ some true
      ∧ s.txnA.written = false ∧ s.txnB.written = false) :
    (raceStep cost s st).tokens = t ∧ (raceStep cost s st).rows = 0
      ∧ (raceStep cost s st).txnA.checked ≠ some true
      ∧ (raceStep cost s st).txnB.checked ≠ some true
      ∧ (raceStep cost s st).txnA.written = false
      ∧ (raceStep cost s st).txnB.written = false := by
  obtain ⟨h1, h2, h3, h4, h5, h6⟩ := h
  cases st with
  | checkA =>
      cases hc : s.txnA.checked with
      | none => simp [raceStep, hc, h1, h2, h4, h5, h6]
      | some b =>
          cases b with
          | false => simp [raceStep, hc, h1, h2, h3, h4, h5, h6]
          | true => exact absurd hc h3
  | applyA =>
      cases hc : s.txnA.checked with
      | none => simp [raceStep, hc, h1, h2, h3, h4, h5, h6]
      | some b =>
          cases b with
          | false => simp [raceStep, hc, h1, h2, h3, h4, h5, h6]
          | true => exact absurd hc h3
  | checkB =>
      cases hc : s.txnB.checked with
      | none => simp [raceStep, hc, h1, h2, h3, h5, h6]
      | some b =>
          cases b with
          | false => simp [raceStep, hc, h1, h2, h3, h4, h5, h6]
          | true => exact absurd hc h4
  | applyB =>
      cases hc : s.txnB.checked with
      | none => simp [raceStep, hc, h1, h2, h3, h4, h5, h6]
      | some b =>
          cases b with
          | false => simp [raceStep, hc, h1, h2, h3, h4, h5, h6]
          | true => exact absurd hc h4

/-- Every schedule preserves the abort invariant. -/
theorem runRace_aborts (cost t : Int) (steps : List RaceStep) (s : RaceState)
    (h : s.tokens = t ∧ s.rows = 0
      ∧ s.txnA.checked ≠ some true ∧ s.txnB.checked ≠ some true
      ∧ s.txnA.written = false ∧ s.txnB.written = false) :
    (runRace cost s steps).tokens = t ∧ (runRace cost s steps).rows = 0
      ∧ (runRace cost s steps).txnA.checked ≠ some true
      ∧ (runRace cost s steps).txnB.checked ≠ some true
      ∧ (runRace cost s steps).txnA.written = false
      ∧ (runRace cost s steps).txnB.written = false := by
  induction steps generalizing s with
  | nil => exact h
  | cons st rest ih => exact ih (raceStep cost s st) (raceStep_aborts cost t s st h)

/-- Claim C2 (code bug): with a balance of exactly one item's cost
(15), two simultaneous redemption inserts do NOT yield one success
and one InsufficientBalance with final balance 0.  Each transaction's
trigger raises the ambiguous-column error at its very first SELECT,
before any balance comparison, so under every interleaving of the two
transactions' phases both abort: zero successes, zero passed checks,
zero committed writes, no redemption rows, and the balance still 15. -/
theorem claim_C2_concurrent_redemptions_abort :
    ∀ steps : List RaceStep,
      (runRace 15 raceInit steps).tokens = 15
      ∧ (runRace 15 raceInit steps).rows = 0
      ∧ (runRace 15 raceInit steps).txnA.checked ≠ some true
      ∧ (runRace 15 raceInit steps).txnB.checked ≠ some true
      ∧ (runRace 15 raceInit steps).txnA.written = false
      ∧ (runRace 15 raceInit steps).txnB.written = false :=
  fun steps => runRace_aborts 15 15 steps raceInit
    ⟨rfl, rfl, by decide, by decide, rfl, rfl⟩

/-- Claim C3: starting from a state with unique profile ids and all
balances non-negative, every finite sequence of Engine operations
leaves every balance non-negative. -/
theorem claim_C3_balance_nonneg (db : DB) (ops : List EngineOp)
    (hnd : ProfileIdsNodup db) (h : BalancesNonneg db) :
    BalancesNonneg (runOps db ops) :=
  (runOps_preserves ops db hnd h).2

/-- Witness database for C3. -/
def dbW3 : DB :=
  ⟨[⟨5, 10, false⟩, ⟨9, 0, true⟩], [⟨7, 10, true⟩], [], [], [], []⟩

/-- Witness operations for C3: a report creation, two redemptions
(the second drains the balance to 0), a vote toggle and an admin
transition. -/
def opsW3 : List EngineOp :=
  [EngineOp.createReport 5 true, EngineOp.redeemItem 5 7, EngineOp.redeemItem 5 7,
   EngineOp.toggleVote 1 5, EngineOp.transitionReward 9 1 RewardStatus.cancelled 3]

/-- Witness for C3 at a concrete state and operation sequence. -/
theorem claim_C3_witness :
    ProfileIdsNodup dbW3 ∧ BalancesNonneg dbW3 ∧ BalancesNonneg (runOps dbW3 opsW3) :=
  ⟨by unfold ProfileIdsNodup; decide, by unfold BalancesNonneg; decide,
    claim_C3_balance_nonneg dbW3 opsW3
      (by unfold ProfileIdsNodup; decide) (by unfold BalancesNonneg; decide)⟩

/-- Claim C4: a failed creation attempt performs nothing at all; the
successful retry then appends exactly one report row whose
`token_reward` is fixed at the default 10 and credits the reporting
user exactly 10 tokens, in the same atomic statement — so one logical
creation credits once even across the failed attempt. -/
theorem claim_C4_report_reward (db : DB) (uid : Nat) (p : Profile)
    (hp : findProfile db uid = some p) :
    (createHazardReportAttempt false db uid).2 = db
    ∧ (createHazardReportAttempt true
        (createHazardReportAttempt false db uid).2 uid).2.hazard_reports
      = db.hazard_reports ++ [⟨freshReportId db, uid, HazardStatus.active, 0, 0, 10⟩]
    ∧ getUserTokens (createHazardReportAttempt true
        (createHazardReportAttempt false db uid).2 uid).2 uid
      = getUserTokens db uid + 10 := by
  refine ⟨rfl, rfl, ?_⟩
  show getUserTokens (createHazardReport db uid) uid = getUserTokens db uid + 10
  rw [getUserTokens_eq _ _ _ (createHazardReport_tokens db uid p hp)]
  rw [getUserTokens_eq db uid p hp]

/-- Witness database for C4: one user with balance 0. -/
def dbW4 : DB :=
  ⟨[⟨5, 0, false⟩], [], [], [], [], []⟩

/-- Witness for C4 at a concrete state. -/
theorem claim_C4_witness :
    findProfile dbW4 5 = some ⟨5, 0, false⟩
    ∧ ((createHazardReportAttempt false dbW4 5).2 = dbW4
      ∧ (createHazardReportAttempt true
          (createHazardReportAttempt false dbW4 5).2 5).2.hazard_reports
        = dbW4.hazard_reports ++ [⟨freshReportId dbW4, 5, HazardStatus.active, 0, 0, 10⟩]
      ∧ getUserTokens (createHazardReportAttempt true
          (createHazardReportAttempt false dbW4 5).2 5).2 5
        = getUserTokens dbW4 5 + 10) :=
  ⟨rfl, claim_C4_report_reward dbW4 5 ⟨5, 0, false⟩ rfl⟩

/-- Concrete state for the C7 counterexample: an admin (id 1) and a
report (id 5) already resolved. -/
def dbC7 : DB :=
  ⟨[⟨1, 0, true⟩, ⟨2, 0, false⟩], [], [⟨5, 2, HazardStatus.resolved, 0, 0, 10⟩], [], [], []⟩

/-- Claim C7, counterexample: the claim says the transition
resolved→investigating must fail with InvalidTransition and leave the
row unchanged; in the code the update has no transition check — the
call reports success and the row's status becomes 'investigating'. -/
theorem claim_C7_counterexample :
    (updateHazardStatus dbC7 1 5 HazardStatus.investigating).1 = true
    ∧ (updateHazardStatus dbC7 1 5 HazardStatus.investigating).2.hazard_reports
      = [⟨5, 2, HazardStatus.investigating, 0, 0, 10⟩] := by
  constructor
  · rfl
  · decide

/-- Claim C7, amended: neither `updateRewardStatus` nor
`updateHazardStatus` restricts transitions.  For an admin actor,
every requested target status — regardless of the row's current
status — is applied to the matching rows and the call reports
success; no InvalidTransition error exists in the code. -/
theorem claim_C7_amended (db : DB) (actor rid hid : Nat)
    (sR : RewardStatus) (sH : HazardStatus) (now : Nat)
    (hadmin : isAdmin db actor = true) :
    ((updateRewardStatus db actor rid sR now).1 = true
      ∧ ∀ r ∈ (updateRewardStatus db actor rid sR now).2.user_rewards,
          r.id = rid → r.status = sR)
    ∧ ((updateHazardStatus db actor hid sH).1 = true
      ∧ ∀ h ∈ (updateHazardStatus db actor hid sH).2.hazard_reports,
          h.id = hid → h.status = sH) := by
  refine ⟨⟨rfl, ?_⟩, ⟨rfl, ?_⟩⟩
  · intro r hr hrid
    obtain ⟨r0, hr0, hfr⟩ := List.mem_map.mp hr
    by_cases hc : (r0.id == rid && canUpdateReward db actor) = true
    · rw [← hfr]
      simp [hc]
    · have hreq : r = r0 := by
        rw [← hfr, if_neg hc]
      exfalso
      apply hc
      have h1 : r0.id = rid := by
        rw [← hreq]
        exact hrid
      rw [h1]
      unfold canUpdateReward
      rw [hadmin]
      simp
  · intro h hh hhid
    obtain ⟨h0, hh0, hfh⟩ := List.mem_map.mp hh
    by_cases hc : (h0.id == hid && canUpdateHazard db actor h0) = true
    · rw [← hfh]
      simp [hc]
    · have hheq : h = h0 := by
        rw [← hfh, if_neg hc]
      exfalso
      apply hc
      have h1 : h0.id = hid := by
        rw [← hheq]
        exact hhid
      rw [h1]
      unfold canUpdateHazard
      rw [hadmin]
      simp
/-- Witness for the amended C7 at a concrete state: the admin moves
the resolved report back to 'active', and the code applies it. -/
theorem claim_C7_witness :
    isAdmin dbC7 1 = true
    ∧ ∀ h ∈ (updateHazardStatus dbC7 1 5 HazardStatus.active).2.hazard_reports,
        h.id = 5 → h.status = HazardStatus.active :=
  ⟨rfl,
    (claim_C7_amended dbC7 1 3 5 RewardStatus.cancelled HazardStatus.active 0 rfl).2.2⟩

/-- Concrete state for the C8 counterexample: a single non-admin user
(id 5) holding a pending redemption (id 1). -/
def dbC8 : DB :=
  ⟨[⟨5, 20, false⟩], [], [], [], [], [⟨1, 5, 7, RewardStatus.pending, none⟩]⟩

/-- Claim C8, counterexample: the claim says a non-admin's
transition_redemption fails with NotAuthorized; in the code the RLS
policy merely filters the row out of the UPDATE — no error is raised,
the call reports success, and the state is unchanged. -/
theorem claim_C8_counterexample :
    (updateRewardStatus dbC8 5 1 RewardStatus.fulfilled 99).1 = true
    ∧ (updateRewardStatus dbC8 5 1 RewardStatus.fulfilled 99).2 = dbC8 := by
  constructor
  · rfl
  · decide

/-- Claim C8, amended: a non-admin actor's transition_redemption
leaves every redemption row unchanged, but it does not fail — no
NotAuthorized error is surfaced and the call reports success.
Moreover a non-admin who is the reporting user CAN change the status
of their own hazard report (the per-row update policy does not
distinguish columns). -/
theorem claim_C8_amended (db : DB) (actor rid hid : Nat)
    (s : RewardStatus) (sH : HazardStatus) (now : Nat)
    (hna : isAdmin db actor = false) :
    ((updateRewardStatus db actor rid s now).1 = true
      ∧ (updateRewardStatus db actor rid s now).2.user_rewards = db.user_rewards)
    ∧ (∀ h0, findReport db hid = some h0 → actor = h0.reported_by →
        (findReport (updateHazardStatus db actor hid sH).2 hid).map (fun h => h.status)
          = some sH) := by
  refine ⟨⟨rfl, ?_⟩, ?_⟩
  · show db.user_rewards.map _ = db.user_rewards
    apply map_eq_self_of
    intro r hr
    have hc : (r.id == rid && canUpdateReward db actor) = false := by
      unfold canUpdateReward
      rw [hna]
      simp
    rw [hc]
    simp
  · intro h0 hfind hown
    have hfind' : db.hazard_reports.find? (fun h => h.id == hid) = some h0 := hfind
    have hpred : (h0.id == hid) = true :=
      find?_pred (fun h => h.id == hid) db.hazard_reports h0 hfind'
    simp only [updateHazardStatus, findReport]
    rw [find?_map_of_pred db.hazard_reports _ (fun h => h.id == hid) (by
      intro x
      by_cases hx : (x.id == hid && canUpdateHazard db actor x) = true
      · simp [hx]
      · simp [hx])]
    rw [hfind']
    have hcond : (h0.id == hid && canUpdateHazard db actor h0) = true := by
      unfold canUpdateHazard
      rw [hpred, ← hown]
      simp
    have heqid : h0.id = hid := eq_of_beq hpred
    have hcan : canUpdateHazard db actor h0 = true := (Bool.and_eq_true_iff.mp hcond).2
    simp [heqid, hcan]

/-- Witness database for the amended C8: a non-admin reporter (id 5)
owning report 2 and redemption 1. -/
def dbW8 : DB :=
  ⟨[⟨5, 0, false⟩], [], [⟨2, 5, HazardStatus.active, 0, 0, 10⟩], [], [],
    [⟨1, 5, 7, RewardStatus.pending, none⟩]⟩

/-- Witness for the amended C8 at a concrete state. -/
theorem claim_C8_witness :
    isAdmin dbW8 5 = false
    ∧ (updateRewardStatus dbW8 5 1 RewardStatus.fulfilled 99).2.user_rewards
      = dbW8.user_rewards :=
  ⟨rfl,
    (claim_C8_amended dbW8 5 1 2 RewardStatus.fulfilled HazardStatus.resolved 99 rfl).1.2⟩

/-- Claim C9 (code bug): a redemption-status transition (to any
target, fulfilled or cancelled) indeed leaves the whole `profiles`
table — hence every balance — unchanged, and cancellation refunds
nothing.  But the claim's premise that the item's cost is deducted
exactly once at redemption creation is false of the program:
redemption creation always aborts with the ambiguous-column error
(see `redeemInsert`), so the cost is never deducted at all — after an
attempted redemption and a subsequent cancellation the balance still
equals the original 20, not 20 minus the cost 15. -/
theorem claim_C9_transition_frame_no_deduction :
    (∀ db : DB, ∀ actor rid : Nat, ∀ s : RewardStatus, ∀ now : Nat,
      (updateRewardStatus db actor rid s now).2.profiles = db.profiles)
    ∧ (∀ db : DB, ∀ uid iid actor rid : Nat, ∀ s : RewardStatus, ∀ now : Nat,
      getUserTokens (updateRewardStatus (redeem_item db uid iid).2 actor rid s now).2 uid
        = getUserTokens db uid)
    ∧ getUserTokens
        (updateRewardStatus (redeem_item dbC1 5 7).2 9 1 RewardStatus.cancelled 0).2 5
      = 20 := by
  refine ⟨fun db actor rid s now => rfl, ?_, by decide⟩
  intro db uid iid actor rid s now
  exact getUserTokens_congr _ _ uid (updateRewardStatus_profiles _ _ _ _ _)

/-- Claim C10: in a state whose stored balances are non-negative (the
invariant maintained by the Engine), `getUserTokens` returns a
non-negative integer; when the profile lookup fails it returns 0
rather than propagating the error, and a stored balance of 0 also
yields 0 — so the caller cannot distinguish a zero balance from a
failed lookup. -/
theorem claim_C10_getUserTokens (db : DB) (uid : Nat) (hnn : BalancesNonneg db) :
    0 ≤ getUserTokens db uid
    ∧ (findProfile db uid = none → getUserTokens db uid = 0)
    ∧ (∀ db2 p2, findProfile db2 uid = some p2 → p2.tokens = 0 →
        getUserTokens db2 uid = 0) := by
  refine ⟨?_, ?_, ?_⟩
  · unfold getUserTokens
    cases hp : findProfile db uid with
    | none => exact le_refl 0
    | some p =>
        have hp' : db.profiles.find? (fun q => q.id == uid) = some p := hp
        have hmem : p ∈ db.profiles := List.mem_of_find?_eq_some hp'
        have h0 := hnn p hmem
        show (0 : Int) ≤ if (p.tokens == 0) = true then (0 : Int) else p.tokens
        rw [if_beq_zero p.tokens]
        exact h0
  · intro h
    unfold getUserTokens
    rw [h]
  · intro db2 p2 h2 hz
    rw [getUserTokens_eq db2 uid p2 h2, hz]

/-- Witness database for C10. -/
def dbW10 : DB :=
  ⟨[⟨5, 3, false⟩], [], [], [], [], []⟩

/-- Witness for C10 at a concrete state, querying a user id with no
profile row: the error path returns 0. -/
theorem claim_C10_witness :
    BalancesNonneg dbW10
    ∧ 0 ≤ getUserTokens dbW10 9
    ∧ (findProfile dbW10 9 = none → getUserTokens dbW10 9 = 0) :=
  ⟨by unfold BalancesNonneg; decide,
    (claim_C10_getUserTokens dbW10 9 (by unfold BalancesNonneg; decide)).1,
    (claim_C10_getUserTokens dbW10 9 (by unfold BalancesNonneg; decide)).2.1⟩
